import Mathlib

/-!
Verification of the joint-drive parameterization logic of the URDF importer
extension (UrdfJointWidgetWithID.py, UrdfOptionWidget.py, extension.py).

Floating-point values are modelled as rationals (the claims are exact
arithmetic identities on small values); Python enum codes are kept as the
integer codes actually used by the code: target types 0 = None, 1 = Position,
2 = Velocity, 3 = Mimic (the combo-box index), drive types
0 = JOINT_DRIVE_ACCELERATION, 1 = JOINT_DRIVE_FORCE.
-/

namespace Urdf

/-- Joint types of the URDF model (UrdfJointType). -/
inductive JointType
  | revolute
  | prismatic
  | fixedJoint
  | floating
  | continuous
  | spherical
deriving DecidableEq, Repr

/-- Mimic sub-record of a joint (`joint.mimic`): the followed joint's name
(empty when the joint has no mimic), multiplier and offset. -/
structure MimicRec where
  joint : String
  multiplier : ℚ
  offset : ℚ
deriving DecidableEq, Repr

/-- Drive sub-record of a joint (`joint.drive`). `target_type` holds the codes
0 = None, 1 = Position, 2 = Velocity, 3 = Mimic; `drive_type` holds
0 = Acceleration, 1 = Force. -/
structure Drive where
  target_type : ℤ
  drive_type : ℤ
  strength : ℚ
  damping : ℚ
  natural_frequency : ℚ
  damping_ratio : ℚ
deriving DecidableEq, Repr

/-- One articulation joint of the parsed robot model, as exposed to the UI
layer. -/
structure Joint where
  name : String
  type : JointType
  inertia : ℚ
  mimic : MimicRec
  drive : Drive
deriving DecidableEq, Repr

/-- The import configuration record, with the fields the visible code sets.
`default_drive_type` holds the target-type code (0 = None, 1 = Position,
2 = Velocity, as mapped by the drop-down in extension.py). -/
structure ImportConfig where
  merge_fixed_joints : Bool
  replace_cylinders_with_capsules : Bool
  convex_decomp : Bool
  import_inertia_tensor : Bool
  fix_base : Bool
  self_collision : Bool
  density : ℚ
  distance_scale : ℚ
  default_drive_type : ℤ
  default_drive_strength : ℚ
  default_position_drive_damping : ℚ
  up_vector : ℚ × ℚ × ℚ
  make_default_prim : Bool
  parse_mimic : Bool
  create_physics_scene : Bool
  collision_from_visuals : Bool
deriving DecidableEq, Repr

/-- Equivalent inertia `m_eq` as computed in UrdfJointItem.compute_drive_strength
and on_update_damping_ratio: 1, except `joint.inertia` when the drive type is
JOINT_DRIVE_FORCE (code 1). -/
def m_eq (j : Joint) : ℚ :=
  if j.drive.drive_type = 1 then j.inertia else 1

/-- Modelled from the spec: the stiffness computation performed by the native
urdf interface function `compute_natural_stiffness(robot, joint_name, nf)`
called at UrdfJointWidgetWithID.py line 243 is not part of the visible source;
the spec states `stiffness = equivalentInertia × naturalFrequency²` with the
equivalent inertia of §4.1 (1 for Acceleration drives, `joint.inertia` for
Force drives). -/
def compute_natural_stiffness (j : Joint) (nf : ℚ) : ℚ :=
  m_eq j * nf ^ 2

/-- UrdfJointItem.compute_drive_strength: recompute the strength from the
current natural-frequency field (the source binds it to a local variable
`strength`, inlined here); when the recomputed value differs from the stored
strength, write it back, and additionally, when the joint's drive target type
is JOINT_DRIVE_POSITION (code 1), recompute the damping as
`2 * m_eq * natural_frequency * damping_ratio` and write it back too.
The UI float models and the `joint.drive` fields are kept in sync by the
item's value-changed callbacks, so both are collapsed into the single
`Drive` record here; the strength write does not change the fields `m_eq`,
the natural frequency or the damping ratio read afterwards, so the two
sequential writes of the source collapse to one record update per branch. -/
def compute_drive_strength (j : Joint) : Joint :=
  if compute_natural_stiffness j j.drive.natural_frequency ≠ j.drive.strength then
    if j.drive.target_type = 1 then
      { j with drive := { j.drive with
          strength := compute_natural_stiffness j j.drive.natural_frequency,
          damping := 2 * m_eq j * j.drive.natural_frequency * j.drive.damping_ratio } }
    else
      { j with drive := { j.drive with
          strength := compute_natural_stiffness j j.drive.natural_frequency } }
  else j

/-- UrdfJointItem.on_update_natural_frequency: when the edited value differs
from the stored natural frequency, recompute the drive strength (by the time
the recompute runs, the natural-frequency field already holds the new value),
then store the new natural frequency. -/
def on_update_natural_frequency (j : Joint) (v : ℚ) : Joint :=
  if j.drive.natural_frequency ≠ v then
    compute_drive_strength { j with drive := { j.drive with natural_frequency := v } }
  else
    { j with drive := { j.drive with natural_frequency := v } }

/-- UrdfJointItem.on_update_damping_ratio: the damping is recomputed from the
current natural frequency and the new damping ratio (the damping-ratio field
already holds the new value when the callback runs), then the new ratio is
stored. -/
def on_update_damping_ratio (j : Joint) (v : ℚ) : Joint :=
  let m : ℚ := if j.drive.drive_type = 1 then j.inertia else 1
  { j with drive := { j.drive with
      damping := 2 * m * j.drive.natural_frequency * v,
      damping_ratio := v } }

/-- UrdfJointListModel.set_drive_type: for every item of the collection, set
the joint's drive type and rerun compute_drive_strength. -/
def set_drive_type (dt : ℤ) (items : List Joint) : List Joint :=
  items.map (fun j =>
    compute_drive_strength { j with drive := { j.drive with drive_type := dt } })

/-- Modelled from the spec: the forward conversion of §4.1,
`stiffness = equivalentInertia × naturalFrequency²` (the multiplication itself
is performed by the native `compute_natural_stiffness`, not visible in the
source). -/
def toStiffness (m nf : ℚ) : ℚ := m * nf ^ 2

/-- The damping side of the conversion, as written at
UrdfJointWidgetWithID.py line 258: `damping = 2 * m_eq * nf * damping_ratio`. -/
def toDamping (m nf dr : ℚ) : ℚ := 2 * m * nf * dr

/-- Modelled from the spec: re-deriving the damping ratio from a damping value
(the inverse direction of the §4.1 conversion is not in the visible source). -/
def dampingRatioOf (m nf d : ℚ) : ℚ := d / (2 * m * nf)

/-- isaacsim.asset.importer.urdf extension.py `reset_config`: the defaults
written into the import configuration. -/
def reset_config : ImportConfig :=
  { merge_fixed_joints := true
    replace_cylinders_with_capsules := false
    convex_decomp := false
    import_inertia_tensor := true
    fix_base := true
    self_collision := false
    density := 0
    distance_scale := 1
    default_drive_type := 1
    default_drive_strength := 1000
    default_position_drive_damping := 100
    up_vector := (0, 0, 1)
    make_default_prim := true
    parse_mimic := true
    create_physics_scene := true
    collision_from_visuals := false }

/-- omni.importer.urdf extension.py `UrdfImporter.__init__`: the defaults
written into the import configuration in the other deployment variant. -/
def omni_reset_config : ImportConfig :=
  { merge_fixed_joints := false
    replace_cylinders_with_capsules := false
    convex_decomp := false
    import_inertia_tensor := false
    fix_base := true
    self_collision := false
    density := 0
    distance_scale := 1
    default_drive_type := 1
    default_drive_strength := 10000000
    default_position_drive_damping := 100000
    up_vector := (0, 0, 1)
    make_default_prim := true
    parse_mimic := true
    create_physics_scene := true
    collision_from_visuals := false }

/-- A Velocity-target joint used to exercise the natural-frequency edit:
drive type Acceleration, stored strength 7, damping 5, natural frequency 0,
damping ratio 1. -/
def jC1 : Joint :=
  { name := "elbow", type := .revolute, inertia := 1,
    mimic := ⟨"", 0, 0⟩,
    drive := { target_type := 2, drive_type := 0, strength := 7, damping := 5,
               natural_frequency := 0, damping_ratio := 1 } }

/-- The scenario joint of the spec: revolute, Position target, Acceleration
drive, damping ratio 1, inertia 1, about to have its natural frequency edited
to 10. -/
def jC1w : Joint :=
  { name := "elbow", type := .revolute, inertia := 1,
    mimic := ⟨"", 0, 0⟩,
    drive := { target_type := 1, drive_type := 0, strength := 0, damping := 0,
               natural_frequency := 0, damping_ratio := 1 } }

/-- A Velocity-target joint with inertia 2 and a stored damping (5) that does
not satisfy the damping formula, used to exercise the bulk drive-type
switch. -/
def jC6 : Joint :=
  { name := "wheel", type := .continuous, inertia := 2,
    mimic := ⟨"", 0, 0⟩,
    drive := { target_type := 2, drive_type := 0, strength := 100, damping := 5,
               natural_frequency := 10, damping_ratio := 1 } }

/-- Python list indexing as used on `self._items`: a nonnegative index counts
from the front, a negative index from the back; `none` models the IndexError
raised outside that range. -/
def pyGet (l : List String) (i : ℤ) : Option String :=
  if 0 ≤ i then l.get? i.toNat
  else if 0 ≤ i + l.length then l.get? (i + l.length).toNat
  else none

/-- ComboListModel state: the item strings, the default index given at
construction (and rewritten by update_mimic), and the current index held by
the SimpleIntModel. -/
structure ComboListModel where
  items : List String
  default_index : ℤ
  current_index : ℤ
deriving DecidableEq, Repr

/-- ComboListModel.set_current_index: the index is stored only when
`int(index) < len(self._items)`. -/
def set_current_index (m : ComboListModel) (i : ℤ) : ComboListModel :=
  if i < m.items.length then { m with current_index := i } else m

/-- ComboListModel.get_value_as_string: the string at the current index when
that index is less than the item count, and the string at the default index
otherwise. -/
def get_value_as_string (m : ComboListModel) : Option String :=
  if m.current_index < m.items.length then pyGet m.items m.current_index
  else pyGet m.items m.default_index

/-- UrdfJointItem.target_type: the combo entries of a joint without a mimic. -/
def target_type_list : List String := ["None", "Position", "Velocity"]

/-- UrdfJointItem.target_type_with_mimic: the combo entries of a joint with a
mimic. -/
def target_type_with_mimic : List String := ["None", "Position", "Velocity", "Mimic"]

/-- UrdfJointItem._get_item_target_type: the initial combo index, 3 (Mimic)
for a joint with a non-empty mimic reference and the stored drive target type
otherwise (this initial helper does not consult parse_mimic). -/
def get_item_target_type (j : Joint) : ℤ :=
  if j.mimic.joint ≠ "" then 3 else j.drive.target_type

/-- One row of the joint tree view: the joint record together with its
target-type combo model (UrdfJointItem; the float models are collapsed into
the `Drive` record, see compute_drive_strength). -/
structure UrdfJointItem where
  joint : Joint
  combo : ComboListModel
deriving DecidableEq, Repr

/-- UrdfJointItem.__init__: the combo gets the four-entry list when the joint
has a mimic and the three-entry list otherwise, with both the default and the
current index given by _get_item_target_type. -/
def initJointItem (j : Joint) : UrdfJointItem :=
  { joint := j,
    combo :=
      { items := if j.mimic.joint ≠ "" then target_type_with_mimic else target_type_list,
        default_index := get_item_target_type j,
        current_index := get_item_target_type j } }

/-- UrdfJointListModel.__init__: one UrdfJointItem per joint of the parsed
list whose type is not JOINT_FIXED, in input order. -/
def loadJoints (joints_list : List Joint) : List UrdfJointItem :=
  (joints_list.filter (fun j => j.type ≠ JointType.fixedJoint)).map initJointItem

/-- The target-type override of UrdfJointItem.set_item_target_type and of
_on_value_changed for the target column: a candidate value is forced to 3
(Mimic) when the joint has a non-empty mimic reference and the configuration
parses mimics; otherwise the candidate is kept. -/
def mimic_override (parse_mimic : Bool) (j : Joint) (value : ℤ) : ℤ :=
  if j.mimic.joint ≠ "" ∧ parse_mimic then 3 else value

/-- The effective target type of a joint: the value the UI applies and stores
whenever the target column settles, i.e. the mimic override applied to the
stored drive target type. -/
def effective_target_type (cfg : ImportConfig) (j : Joint) : ℤ :=
  mimic_override cfg.parse_mimic j j.drive.target_type

/-- A combo model over the three-entry target list whose current index (5)
is out of range, with the in-range default index 1. -/
def comboC10 : ComboListModel :=
  { items := target_type_list, default_index := 1, current_index := 5 }

/-- A mimic-follower joint whose stored target type is Velocity (code 2). -/
def jC2 : Joint :=
  { name := "finger", type := .revolute, inertia := 1,
    mimic := ⟨"thumb", 2, 0⟩,
    drive := { target_type := 2, drive_type := 0, strength := 10, damping := 1,
               natural_frequency := 1, damping_ratio := 1 } }

/-- A joint without a mimic reference and stored target type Velocity. -/
def jC2nm : Joint :=
  { name := "slider", type := .prismatic, inertia := 1,
    mimic := ⟨"", 0, 0⟩,
    drive := { target_type := 2, drive_type := 0, strength := 10, damping := 1,
               natural_frequency := 1, damping_ratio := 1 } }

/-- A small parsed joint list mixing fixed and non-fixed joints. -/
def jointsC7 : List Joint :=
  [jC2nm,
   { jC2nm with name := "anchor", type := .fixedJoint },
   jC2,
   { jC2nm with name := "base", type := .fixedJoint }]

/-- Enabled/visible flags of one widget field stored in item.value_field. -/
structure FieldState where
  enabled : Bool
  visible : Bool
deriving DecidableEq, Repr

/-- The comparison `current_target == ["None"]` written at
UrdfJointWidgetWithID.py line 489: in Python a string compared with a list is
never equal, so this predicate is false for every string. -/
def target_equals_list_none (_current_target : String) : Bool := false

/-- UrdfJointItemDelegate.__on_target_change, per field key k present in
item.value_field (1 = target combo, 2 = strength, 3 = damping, 4 = natural
frequency, 5 = damping ratio): first every field is enabled and made visible;
for target "Mimic" under parse_mimic the keys 1, 2, 3 are disabled (2 and 3
also hidden); then the `== ["None"]` / "Position" / "Velocity" if/elif chain
runs, whose first branch never fires (see target_equals_list_none). -/
def on_target_change (parse_mimic : Bool) (current_target : String) (k : ℕ) :
    FieldState :=
  let st0 : FieldState := ⟨true, true⟩
  let st1 : FieldState :=
    if current_target = "Mimic" ∧ parse_mimic = true ∧ (k = 1 ∨ k = 2 ∨ k = 3) then
      ⟨false, if k = 2 ∨ k = 3 then false else st0.visible⟩
    else st0
  if target_equals_list_none current_target = true ∧
      (k = 2 ∨ k = 3 ∨ k = 4 ∨ k = 5) then
    ⟨false, st1.visible⟩
  else if target_equals_list_none current_target = false ∧
      current_target = "Position" then
    ⟨true, true⟩
  else if target_equals_list_none current_target = false ∧
      current_target = "Velocity" ∧ (k = 3 ∨ k = 5) then
    ⟨false, st1.visible⟩
  else st1

/-- The two tree-view numeric-column modes of the joint widget. -/
inductive JointSettingMode
  | stiffness
  | naturalFrequency
deriving DecidableEq, Repr

/-- Python `int()` conversion of a float model value
(SimpleFloatModel.get_value_as_int): truncation toward zero. -/
def pyInt (q : ℚ) : ℤ := if 0 ≤ q then ⌊q⌋ else ⌈q⌉

/-- The source-row value propagated by UrdfJointWidget._on_value_changed for
the numeric columns: strength/damping in stiffness mode, natural
frequency/damping ratio in natural-frequency mode (column 2 picks the first
of the pair, column 3 the second). -/
def source_value (mode : JointSettingMode) (it : UrdfJointItem) (col : ℕ) : ℚ :=
  match mode with
  | .stiffness =>
      if col = 2 then it.joint.drive.strength else it.joint.drive.damping
  | .naturalFrequency =>
      if col = 2 then it.joint.drive.natural_frequency
      else it.joint.drive.damping_ratio

/-- UrdfJointItem.get_item_value for the numeric columns 2/3: the stored
float in stiffness mode; in natural-frequency mode the source reads the
shifted column's model with get_value_as_int, i.e. the int-truncated natural
frequency / damping ratio. -/
def get_item_value_num (mode : JointSettingMode) (it : UrdfJointItem) (col : ℕ) :
    ℚ :=
  match mode with
  | .stiffness =>
      if col = 2 then it.joint.drive.strength else it.joint.drive.damping
  | .naturalFrequency =>
      if col = 2 then (pyInt it.joint.drive.natural_frequency : ℚ)
      else (pyInt it.joint.drive.damping_ratio : ℚ)

/-- UrdfJointItem.set_item_value for the numeric columns 2/3: writing the
stiffness-mode float models stores strength/damping on the joint through the
on_update callbacks; writing the natural-frequency-mode models runs
on_update_natural_frequency / on_update_damping_ratio. -/
def set_item_value_num (mode : JointSettingMode) (it : UrdfJointItem) (col : ℕ)
    (v : ℚ) : UrdfJointItem :=
  match mode with
  | .stiffness =>
      if col = 2 then
        { it with joint :=
            { it.joint with drive := { it.joint.drive with strength := v } } }
      else
        { it with joint :=
            { it.joint with drive := { it.joint.drive with damping := v } } }
  | .naturalFrequency =>
      if col = 2 then { it with joint := on_update_natural_frequency it.joint v }
      else { it with joint := on_update_damping_ratio it.joint v }

/-- The guarded per-target write of UrdfJointWidget._on_value_changed for the
numeric columns: only rows displaying target Position or Velocity receive the
value, a Velocity row never receives column 3, and an equal value is not
rewritten. -/
def propagate_to (mode : JointSettingMode) (value : ℚ) (col : ℕ)
    (it : UrdfJointItem) : UrdfJointItem :=
  if get_value_as_string it.combo = some "Position" ∨
      get_value_as_string it.combo = some "Velocity" then
    if ¬(get_value_as_string it.combo = some "Velocity" ∧ col = 3) then
      if get_item_value_num mode it col ≠ value then
        set_item_value_num mode it col value
      else it
    else it
  else it

/-- UrdfJointWidget._on_value_changed, bulk-edit branch for the numeric
columns 2 and 3: when bulk edit is enabled, every selected row other than the
source receives the source's value through the guarded write; every other row
is untouched.  The selection is modelled as the set of list indices of the
selected rows and the identity test `item is not joint_item` as index
inequality; re-entrant firings triggered by the writes rewrite the same value
and change nothing further, so the net effect per row is a single guarded
write. -/
def bulk_on_value_changed (mode : JointSettingMode) (enable_bulk : Bool)
    (items : List UrdfJointItem) (sel : List ℕ) (src : ℕ) (col : ℕ) :
    List UrdfJointItem :=
  if enable_bulk = false then items
  else
    match items[src]? with
    | none => items
    | some srcItem =>
        items.mapIdx fun i it =>
          if i ∈ sel ∧ i ≠ src then
            propagate_to mode (source_value mode srcItem col) col it
          else it

/-- UrdfJointItem._on_value_changed for the target column (fires whenever the
combo's int model changes): apply the mimic override to the combo's current
value, write the result back to the combo and store it as the joint's drive
target type.  A re-entrant firing caused by the write-back recomputes the
same value and makes no further change, so the fixpoint is taken directly. -/
def on_target_value_changed (parse_mimic : Bool) (it : UrdfJointItem) :
    UrdfJointItem :=
  let value : ℤ := mimic_override parse_mimic it.joint it.combo.current_index
  { joint := { it.joint with drive :=
      { it.joint.drive with target_type := value } },
    combo := set_current_index it.combo value }

/-- UrdfJointItemDelegate.update_mimic for one item whose target combo has
been built: when parse_mimic is false the combo is reset to the three-entry
target list with default index 1 (Position) and index 1 selected; when
parse_mimic is true and the joint has a mimic, the combo is reset to the
four-entry list with default index 3 (Mimic) and index 3 selected.  When the
selected index actually changes, the int model fires the item's target
value-changed callback, which stores the new target type on the joint. -/
def update_mimic_item (parse_mimic : Bool) (it : UrdfJointItem) :
    UrdfJointItem :=
  if parse_mimic = false then
    let it1 : UrdfJointItem :=
      { it with combo :=
          { items := target_type_list, default_index := 1, current_index := 1 } }
    if it.combo.current_index ≠ 1 then on_target_value_changed parse_mimic it1
    else it1
  else if it.joint.mimic.joint ≠ "" then
    let it1 : UrdfJointItem :=
      { it with combo :=
          { items := target_type_with_mimic, default_index := 3,
            current_index := 3 } }
    if it.combo.current_index ≠ 3 then on_target_value_changed parse_mimic it1
    else it1
  else it

/-- UrdfOptionWidget._parse_mimic: store the flag in the configuration and
refresh every built joint item through the delegate's update_mimic. -/
def parse_mimic_toggle (cfg : ImportConfig) (items : List UrdfJointItem)
    (value : Bool) : ImportConfig × List UrdfJointItem :=
  ({ cfg with parse_mimic := value }, items.map (update_mimic_item value))

/-- The mimic follower `jC2` as a built tree-view row: combo over the
four-entry list with Mimic (index 3) selected, stored target type still
Velocity (code 2). -/
def itC8 : UrdfJointItem := initJointItem jC2

/-- A built Position-target row (the spec-scenario joint). -/
def itPos : UrdfJointItem := initJointItem jC1w

/-- A built Velocity-target row. -/
def itVel : UrdfJointItem := initJointItem jC2nm

/-- A two-row collection: a Position row followed by a Velocity row. -/
def itemsC5 : List UrdfJointItem := [itPos, itVel]

/- ------------------------------------------------------------------ -/
/- Theorems                                                           -/
/- ------------------------------------------------------------------ -/

/-- Unfolding lemma for the modelled native stiffness computation. -/
theorem compute_natural_stiffness_def (j : Joint) (nf : ℚ) :
    compute_natural_stiffness j nf = m_eq j * nf ^ 2 := rfl

/-- Behaviour of UrdfJointItem.compute_drive_strength: the stored strength
becomes `m_eq · nf²`; every other joint field except the damping is preserved;
the damping is rewritten to `2 · m_eq · nf · damping_ratio` exactly when the
recomputed strength differs from the stored one and the drive target type is
Position (code 1), and is preserved otherwise. -/
theorem compute_drive_strength_spec (j : Joint) :
    (compute_drive_strength j).drive.strength
        = m_eq j * j.drive.natural_frequency ^ 2 ∧
    (compute_drive_strength j).drive.natural_frequency
        = j.drive.natural_frequency ∧
    (compute_drive_strength j).drive.damping_ratio = j.drive.damping_ratio ∧
    (compute_drive_strength j).drive.drive_type = j.drive.drive_type ∧
    (compute_drive_strength j).drive.target_type = j.drive.target_type ∧
    (compute_drive_strength j).inertia = j.inertia ∧
    (compute_drive_strength j).name = j.name ∧
    (compute_drive_strength j).type = j.type ∧
    (compute_drive_strength j).mimic = j.mimic ∧
    (m_eq j * j.drive.natural_frequency ^ 2 ≠ j.drive.strength ∧
        j.drive.target_type = 1 →
      (compute_drive_strength j).drive.damping
        = 2 * m_eq j * j.drive.natural_frequency * j.drive.damping_ratio) ∧
    ((m_eq j * j.drive.natural_frequency ^ 2 = j.drive.strength ∨
        j.drive.target_type ≠ 1) →
      (compute_drive_strength j).drive.damping = j.drive.damping) := by
  unfold compute_drive_strength
  rw [compute_natural_stiffness_def]
  by_cases hs : m_eq j * j.drive.natural_frequency ^ 2 = j.drive.strength
  · rw [if_neg (by simpa using hs)]
    refine ⟨hs.symm, rfl, rfl, rfl, rfl, rfl, rfl, rfl, rfl, ?_, fun _ => rfl⟩
    rintro ⟨hne, -⟩
    exact absurd hs hne
  · rw [if_pos (by simpa using hs)]
    by_cases ht : j.drive.target_type = 1
    · rw [if_pos ht]
      refine ⟨rfl, rfl, rfl, rfl, rfl, rfl, rfl, rfl, rfl, fun _ => rfl, ?_⟩
      rintro (h | h)
      · exact absurd h hs
      · exact absurd ht h
    · rw [if_neg ht]
      exact ⟨rfl, rfl, rfl, rfl, rfl, rfl, rfl, rfl, rfl,
        fun h => absurd h.2 ht, fun _ => rfl⟩

/-- C1 counterexample: on the Velocity-target joint `jC1` (stored strength 7,
damping 5, damping ratio 1, Acceleration drive), editing the natural frequency
to 10 recomputes the strength to 100 ≠ 7, yet the damping is NOT rewritten to
the claimed `2 · m_eq · 10 · 1 = 20`: it stays 5, because the code rewrites the
damping only when the drive target type is Position. -/
theorem C1_counterexample :
    jC1.drive.natural_frequency ≠ 10 ∧
    jC1.drive.strength = 7 ∧
    (on_update_natural_frequency jC1 10).drive.strength = 100 ∧
    (on_update_natural_frequency jC1 10).drive.damping = 5 ∧
    2 * m_eq jC1 * 10 * jC1.drive.damping_ratio = 20 ∧
    (5 : ℚ) ≠ 20 := by
  norm_num [on_update_natural_frequency, compute_drive_strength,
    compute_natural_stiffness, m_eq, jC1]

/-- C1 (amended): editing a joint's natural frequency to a new value stores
the new frequency and recomputes the strength to
`equivalentInertia · naturalFrequency²`; the damping is recomputed as
`2 · equivalentInertia · naturalFrequency · dampingRatio` and written back
only when the recomputed strength differs from the stored one AND the joint's
drive target type is Position — otherwise the damping is left unchanged. -/
theorem C1_natural_frequency_edit (j : Joint) (v : ℚ)
    (hchanged : j.drive.natural_frequency ≠ v) :
    (on_update_natural_frequency j v).drive.strength = m_eq j * v ^ 2 ∧
    (on_update_natural_frequency j v).drive.natural_frequency = v ∧
    (m_eq j * v ^ 2 ≠ j.drive.strength ∧ j.drive.target_type = 1 →
      (on_update_natural_frequency j v).drive.damping
        = 2 * m_eq j * v * j.drive.damping_ratio) ∧
    ((m_eq j * v ^ 2 = j.drive.strength ∨ j.drive.target_type ≠ 1) →
      (on_update_natural_frequency j v).drive.damping = j.drive.damping) := by
  have h := compute_drive_strength_spec
    { j with drive := { j.drive with natural_frequency := v } }
  unfold on_update_natural_frequency
  rw [if_pos hchanged]
  exact ⟨h.1, h.2.1, fun hp => h.2.2.2.2.2.2.2.2.2.1 hp,
    fun hp => h.2.2.2.2.2.2.2.2.2.2 hp⟩

/-- C1 witness: the spec scenario joint `jC1w` (Position target, Acceleration
drive, inertia 1, damping ratio 1) with the natural frequency edited to 10
yields strength 100 and damping 20. -/
theorem C1_witness :
    jC1w.drive.natural_frequency ≠ 10 ∧
    (on_update_natural_frequency jC1w 10).drive.strength = m_eq jC1w * 10 ^ 2 ∧
    (on_update_natural_frequency jC1w 10).drive.damping
      = 2 * m_eq jC1w * 10 * jC1w.drive.damping_ratio ∧
    (on_update_natural_frequency jC1w 10).drive.strength = 100 ∧
    (on_update_natural_frequency jC1w 10).drive.damping = 20 := by
  have h := C1_natural_frequency_edit jC1w 10 (by norm_num [jC1w])
  have hd := h.2.2.1 ⟨by norm_num [jC1w, m_eq], by norm_num [jC1w]⟩
  refine ⟨by norm_num [jC1w], h.1, hd, ?_, ?_⟩
  · rw [h.1]; norm_num [jC1w, m_eq]
  · rw [hd]; norm_num [jC1w, m_eq]

/-- C3: the natural-frequency/damping-ratio → stiffness/damping conversion
round-trips for all positive inputs: the (unique nonnegative) natural
frequency re-derived from the produced stiffness is the original one, and the
damping ratio re-derived from the produced damping equals the original one
exactly — in particular within the claimed 1e-6 relative tolerance. -/
theorem C3_roundtrip (m nf dr : ℚ) (hm : 0 < m) (hnf : 0 < nf) (hdr : 0 < dr) :
    (∀ x : ℚ, 0 ≤ x → toStiffness m x = toStiffness m nf → x = nf) ∧
    dampingRatioOf m nf (toDamping m nf dr) = dr ∧
    |dampingRatioOf m nf (toDamping m nf dr) - dr| ≤ dr / 1000000 := by
  have h2 : dampingRatioOf m nf (toDamping m nf dr) = dr := by
    unfold dampingRatioOf toDamping
    field_simp
  refine ⟨?_, h2, ?_⟩
  · intro x hx hEq
    unfold toStiffness at hEq
    have hx2 : x ^ 2 = nf ^ 2 := mul_left_cancel₀ hm.ne' hEq
    nlinarith [sq_nonneg (x - nf), sq_nonneg (x + nf)]
  · rw [h2]
    simp only [sub_self, abs_zero]
    positivity

/-- C3 witness: the round trip at `m = 1`, `nf = 10`, `dr = 1`. -/
theorem C3_roundtrip_witness :
    (0 : ℚ) < 1 ∧ (0 : ℚ) < 10 ∧
    ((∀ x : ℚ, 0 ≤ x → toStiffness 1 x = toStiffness 1 10 → x = 10) ∧
      dampingRatioOf 1 10 (toDamping 1 10 1) = 1 ∧
      |dampingRatioOf 1 10 (toDamping 1 10 1) - 1| ≤ 1 / 1000000) :=
  ⟨by norm_num, by norm_num,
    C3_roundtrip 1 10 1 (by norm_num) (by norm_num) (by norm_num)⟩

/-- C6 counterexample: switching the collection `[jC6]` (a Velocity-target
joint, Acceleration drive, inertia 2, nf 10, ratio 1, stored damping 5) to
Force drive recomputes the strength (100 → 200) but does NOT recompute the
damping with the new equivalent inertia (the claimed value is
`2 · 2 · 10 · 1 = 40`): the damping stays 5, because the code rewrites the
damping only for Position-target joints. -/
theorem C6_counterexample :
    (set_drive_type 1 [jC6]).map (fun j => j.drive.strength) = [200] ∧
    (set_drive_type 1 [jC6]).map (fun j => j.drive.damping) = [5] ∧
    2 * jC6.inertia * jC6.drive.natural_frequency * jC6.drive.damping_ratio
      = 40 ∧
    (5 : ℚ) ≠ 40 := by
  norm_num [set_drive_type, compute_drive_strength, compute_natural_stiffness,
    m_eq, jC6]

/-- C6 (amended): the bulk operation set_drive_type writes the new drive type
into every joint of the collection, leaves each joint's natural frequency and
damping ratio unchanged, and recomputes each strength from the current
natural frequency with the new equivalent inertia; the damping is recomputed
(as `2 · m_eq · nf · dampingRatio`) only for joints whose recomputed strength
differs from the stored one and whose drive target type is Position, and is
left unchanged otherwise. -/
theorem C6_bulk_drive_type (dt : ℤ) (items : List Joint) (i : ℕ)
    (hi : i < items.length) (hi2 : i < (set_drive_type dt items).length) :
    ((set_drive_type dt items)[i]).drive.drive_type = dt ∧
    ((set_drive_type dt items)[i]).drive.natural_frequency
      = (items[i]).drive.natural_frequency ∧
    ((set_drive_type dt items)[i]).drive.damping_ratio
      = (items[i]).drive.damping_ratio ∧
    ((set_drive_type dt items)[i]).drive.strength
      = (if dt = 1 then (items[i]).inertia else 1)
          * (items[i]).drive.natural_frequency ^ 2 ∧
    ((if dt = 1 then (items[i]).inertia else 1)
          * (items[i]).drive.natural_frequency ^ 2 ≠ (items[i]).drive.strength ∧
        (items[i]).drive.target_type = 1 →
      ((set_drive_type dt items)[i]).drive.damping
        = 2 * (if dt = 1 then (items[i]).inertia else 1)
            * (items[i]).drive.natural_frequency
            * (items[i]).drive.damping_ratio) ∧
    ((if dt = 1 then (items[i]).inertia else 1)
          * (items[i]).drive.natural_frequency ^ 2 = (items[i]).drive.strength ∨
        (items[i]).drive.target_type ≠ 1 →
      ((set_drive_type dt items)[i]).drive.damping
        = (items[i]).drive.damping) := by
  have hmap : (set_drive_type dt items)[i]
      = compute_drive_strength
          { items[i] with drive := { (items[i]).drive with drive_type := dt } } := by
    simp [set_drive_type]
  have h := compute_drive_strength_spec
    { items[i] with drive := { (items[i]).drive with drive_type := dt } }
  rw [hmap]
  exact ⟨h.2.2.2.1, h.2.1, h.2.2.1, h.1,
    fun hp => h.2.2.2.2.2.2.2.2.2.1 hp, fun hp => h.2.2.2.2.2.2.2.2.2.2 hp⟩

/-- C6 witness: the bulk drive-type switch to Force on the singleton
collection `[jC6]` keeps nf = 10 and ratio = 1 and recomputes the strength
with equivalent inertia `jC6.inertia = 2`. -/
theorem C6_bulk_drive_type_witness :
    ((set_drive_type 1 [jC6]).get ⟨0, by simp [set_drive_type]⟩).drive.drive_type
        = 1 ∧
    ((set_drive_type 1 [jC6]).get ⟨0, by simp [set_drive_type]⟩).drive.natural_frequency
        = ([jC6].get ⟨0, by simp⟩).drive.natural_frequency ∧
    ((set_drive_type 1 [jC6]).get ⟨0, by simp [set_drive_type]⟩).drive.damping_ratio
        = ([jC6].get ⟨0, by simp⟩).drive.damping_ratio ∧
    ((set_drive_type 1 [jC6]).get ⟨0, by simp [set_drive_type]⟩).drive.strength
        = (if (1 : ℤ) = 1 then ([jC6].get ⟨0, by simp⟩).inertia else 1)
            * ([jC6].get ⟨0, by simp⟩).drive.natural_frequency ^ 2 := by
  have h := C6_bulk_drive_type 1 [jC6] 0 (by norm_num)
    (by norm_num [set_drive_type])
  exact ⟨h.1, h.2.1, h.2.2.1, h.2.2.2.1⟩

/-- C9: after configuration reset both deployment variants hold the documented
defaults: density 0, distance scale 1, default drive type Position (code 1),
parse_mimic true; the isaacsim variant merges fixed joints and uses default
drive strength 1e3, the omni variant does not merge and uses 1e7. -/
theorem C9_defaults :
    reset_config.density = 0 ∧
    reset_config.distance_scale = 1 ∧
    reset_config.default_drive_type = 1 ∧
    reset_config.parse_mimic = true ∧
    reset_config.merge_fixed_joints = true ∧
    reset_config.default_drive_strength = 1000 ∧
    omni_reset_config.density = 0 ∧
    omni_reset_config.distance_scale = 1 ∧
    omni_reset_config.default_drive_type = 1 ∧
    omni_reset_config.parse_mimic = true ∧
    omni_reset_config.merge_fixed_joints = false ∧
    omni_reset_config.default_drive_strength = 10000000 := by
  norm_num [reset_config, omni_reset_config]

/-- C10: for a combo model whose default index is in range and whose current
index is nonnegative (as holds for every model the widgets construct),
set_current_index with an index at least the item count is a no-op, and
get_value_as_string never indexes out of range: it yields some string, and
when the current index is not less than the item count it is the
default-index item's string. -/
theorem C10_combo_guards (m : ComboListModel) (i : ℤ)
    (hd0 : 0 ≤ m.default_index) (hd : m.default_index < m.items.length)
    (hc : 0 ≤ m.current_index) :
    ((m.items.length : ℤ) ≤ i → set_current_index m i = m) ∧
    (∃ s, get_value_as_string m = some s) ∧
    ((m.items.length : ℤ) ≤ m.current_index →
      get_value_as_string m = m.items.get? m.default_index.toNat) := by
  refine ⟨fun hge => ?_, ?_, fun hge => ?_⟩
  · unfold set_current_index
    rw [if_neg (not_lt.mpr hge)]
  · unfold get_value_as_string pyGet
    by_cases h : m.current_index < (m.items.length : ℤ)
    · rw [if_pos h, if_pos hc]
      have hlt : m.current_index.toNat < m.items.length := by omega
      exact ⟨_, List.get?_eq_get hlt⟩
    · rw [if_neg h, if_pos hd0]
      have hlt : m.default_index.toNat < m.items.length := by omega
      exact ⟨_, List.get?_eq_get hlt⟩
  · unfold get_value_as_string pyGet
    rw [if_neg (not_lt.mpr hge), if_pos hd0]

/-- C10 witness: the guards at the concrete model `comboC10` (three items,
default index 1, current index 5) and the probe index 7. -/
theorem C10_combo_guards_witness :
    (0 : ℤ) ≤ comboC10.default_index ∧
    comboC10.default_index < comboC10.items.length ∧
    (0 : ℤ) ≤ comboC10.current_index ∧
    (((comboC10.items.length : ℤ) ≤ 7 → set_current_index comboC10 7 = comboC10) ∧
      (∃ s, get_value_as_string comboC10 = some s) ∧
      ((comboC10.items.length : ℤ) ≤ comboC10.current_index →
        get_value_as_string comboC10
          = comboC10.items.get? comboC10.default_index.toNat)) :=
  ⟨by decide, by decide, by decide,
    C10_combo_guards comboC10 7 (by decide) (by decide) (by decide)⟩

/-- C7: loading a parsed joint list builds one item per non-fixed joint in
input order: the item count is the count of non-fixed joints, the items'
joints are exactly the order-preserving filter of the input by non-fixed
type (which is a sublist of the input), and no item holds a fixed joint. -/
theorem C7_loadJoints (joints_list : List Joint) :
    (loadJoints joints_list).length
        = joints_list.countP (fun j => j.type ≠ JointType.fixedJoint) ∧
    (loadJoints joints_list).map UrdfJointItem.joint
        = joints_list.filter (fun j => j.type ≠ JointType.fixedJoint) ∧
    List.Sublist (joints_list.filter (fun j => j.type ≠ JointType.fixedJoint))
      joints_list ∧
    (loadJoints joints_list).countP
        (fun it => it.joint.type = JointType.fixedJoint) = 0 := by
  refine ⟨?_, ?_, List.filter_sublist _, ?_⟩
  · simp only [loadJoints, List.length_map]
    exact (List.countP_eq_length_filter _ _).symm
  · simp only [loadJoints, List.map_map]
    have hcomp : UrdfJointItem.joint ∘ initJointItem = id := rfl
    rw [hcomp, List.map_id]
  · simp only [loadJoints, List.countP_map, List.countP_eq_zero,
      List.mem_filter, Function.comp]
    intro j hj
    simp only [initJointItem, decide_eq_true_eq] at *
    exact fun hfix => by simp [hfix] at hj

/-- C2: a joint with a non-empty mimic reference under parse_mimic = true has
effective target type Mimic (code 3) regardless of the stored target type;
every other joint's effective target type is the stored drive target type. -/
theorem C2_effective_target (cfg : ImportConfig) (j : Joint) :
    (j.mimic.joint ≠ "" ∧ cfg.parse_mimic = true →
      effective_target_type cfg j = 3) ∧
    (¬(j.mimic.joint ≠ "" ∧ cfg.parse_mimic = true) →
      effective_target_type cfg j = j.drive.target_type) := by
  constructor
  · rintro ⟨h1, h2⟩
    simp [effective_target_type, mimic_override, h1, h2]
  · intro h
    rcases not_and_or.mp h with h1 | h2
    · simp only [ne_eq, not_not] at h1
      simp [effective_target_type, mimic_override, h1]
    · have h2' : cfg.parse_mimic = false := by simpa using h2
      simp [effective_target_type, mimic_override, h2']

/-- C2 witness: with the default configuration (parse_mimic = true), the
mimic follower `jC2` (stored target Velocity) is effectively Mimic, while the
mimic-free joint `jC2nm` keeps its stored target type. -/
theorem C2_effective_target_witness :
    (jC2.mimic.joint ≠ "" ∧ reset_config.parse_mimic = true) ∧
    effective_target_type reset_config jC2 = 3 ∧
    ¬(jC2nm.mimic.joint ≠ "" ∧ reset_config.parse_mimic = true) ∧
    effective_target_type reset_config jC2nm = jC2nm.drive.target_type :=
  ⟨⟨by decide, by decide⟩,
    (C2_effective_target reset_config jC2).1 ⟨by decide, by decide⟩,
    by decide,
    (C2_effective_target reset_config jC2nm).2 (by decide)⟩

/-- C4: evaluation of the field-enablement logic against the claimed table
(which matches the code's own comment at lines 475-478).  For effective type
None the strength (2), damping (3), natural-frequency (4) and damping-ratio
(5) fields all stay ENABLED — the comparison `current_target == ["None"]`
compares a string with a list and never holds — contradicting the
"all disabled" row; for Mimic the natural-frequency and damping-ratio fields
also stay enabled, contradicting its "all disabled" row; the Position and
Velocity rows do match the table. -/
theorem C4_enablement :
    target_equals_list_none "None" = false ∧
    (on_target_change true "None" 2).enabled = true ∧
    (on_target_change true "None" 3).enabled = true ∧
    (on_target_change true "None" 4).enabled = true ∧
    (on_target_change true "None" 5).enabled = true ∧
    (on_target_change true "Mimic" 2).enabled = false ∧
    (on_target_change true "Mimic" 3).enabled = false ∧
    (on_target_change true "Mimic" 4).enabled = true ∧
    (on_target_change true "Mimic" 5).enabled = true ∧
    (on_target_change true "Position" 2).enabled = true ∧
    (on_target_change true "Position" 3).enabled = true ∧
    (on_target_change true "Position" 4).enabled = true ∧
    (on_target_change true "Position" 5).enabled = true ∧
    (on_target_change true "Velocity" 2).enabled = true ∧
    (on_target_change true "Velocity" 3).enabled = false ∧
    (on_target_change true "Velocity" 4).enabled = true ∧
    (on_target_change true "Velocity" 5).enabled = false := by
  decide

/-- C8 counterexample: the mimic row `itC8` stores target type Velocity
(code 2); toggling parse_mimic to false does NOT expose the stored target
type — update_mimic resets the combo to default index 1 and the fired
callback overwrites the stored target with 1 (Position), so the stored value
2 is lost. -/
theorem C8_counterexample :
    itC8.joint.drive.target_type = 2 ∧
    (parse_mimic_toggle reset_config [itC8] false).2.map
        (fun it => it.joint.drive.target_type) = [1] ∧
    (parse_mimic_toggle reset_config [itC8] false).2.map
        (fun it => it.combo.current_index) = [1] ∧
    (1 : ℤ) ≠ 2 := by
  decide

/-- C8 (amended): for a joint with a non-empty mimic reference whose built
combo currently selects Mimic (index 3, the steady state under
parse_mimic = true), toggling parse_mimic to false sets both the combo
selection and the STORED target type to Position (code 1, the reset default),
not to the previously stored target type; toggling back to true restores
Mimic (index 3) and stores Mimic as the target type, so the effective type is
Mimic again but the original stored target type is not preserved unless it
was Position resp. Mimic; the joint's mimic record itself is unchanged. -/
theorem C8_toggle (cfg : ImportConfig) (j : Joint) (c : ComboListModel)
    (hm : j.mimic.joint ≠ "") (hc : c.current_index = 3) :
    (update_mimic_item false ⟨j, c⟩).joint.drive.target_type = 1 ∧
    (update_mimic_item false ⟨j, c⟩).combo.current_index = 1 ∧
    (update_mimic_item false ⟨j, c⟩).joint.mimic = j.mimic ∧
    (update_mimic_item true (update_mimic_item false ⟨j, c⟩)).joint.drive.target_type
      = 3 ∧
    (update_mimic_item true (update_mimic_item false ⟨j, c⟩)).combo.current_index
      = 3 ∧
    effective_target_type cfg
      (update_mimic_item true (update_mimic_item false ⟨j, c⟩)).joint = 3 := by
  simp [update_mimic_item, on_target_value_changed, set_current_index,
    mimic_override, effective_target_type, target_type_list,
    target_type_with_mimic, hm, hc]

/-- C8 witness: the toggle round trip at the concrete mimic row `itC8`. -/
theorem C8_toggle_witness :
    jC2.mimic.joint ≠ "" ∧
    itC8.combo.current_index = 3 ∧
    ((update_mimic_item false ⟨jC2, itC8.combo⟩).joint.drive.target_type = 1 ∧
      (update_mimic_item false ⟨jC2, itC8.combo⟩).combo.current_index = 1 ∧
      (update_mimic_item false ⟨jC2, itC8.combo⟩).joint.mimic = jC2.mimic ∧
      (update_mimic_item true
          (update_mimic_item false ⟨jC2, itC8.combo⟩)).joint.drive.target_type = 3 ∧
      (update_mimic_item true
          (update_mimic_item false ⟨jC2, itC8.combo⟩)).combo.current_index = 3 ∧
      effective_target_type reset_config
        (update_mimic_item true
          (update_mimic_item false ⟨jC2, itC8.combo⟩)).joint = 3) :=
  ⟨by decide, by decide,
    C8_toggle reset_config jC2 itC8.combo (by decide) (by decide)⟩

/-- A row not displaying target Position or Velocity is never written by the
guarded propagation. -/
theorem propagate_to_not_pv (mode : JointSettingMode) (value : ℚ) (col : ℕ)
    (it : UrdfJointItem)
    (h : ¬(get_value_as_string it.combo = some "Position" ∨
        get_value_as_string it.combo = some "Velocity")) :
    propagate_to mode value col it = it := by
  unfold propagate_to
  rw [if_neg h]

/-- A row displaying target Velocity is never written in column 3. -/
theorem propagate_to_velocity_col3 (mode : JointSettingMode) (value : ℚ)
    (it : UrdfJointItem)
    (hv : get_value_as_string it.combo = some "Velocity") :
    propagate_to mode value 3 it = it := by
  unfold propagate_to
  by_cases hp : get_value_as_string it.combo = some "Position" ∨
      get_value_as_string it.combo = some "Velocity"
  · rw [if_pos hp, if_neg (not_not_intro ⟨hv, rfl⟩)]
  · rw [if_neg hp]

/-- A guarded propagation write to a row displaying Velocity whose stored
target type is the Velocity code never changes the row's damping or damping
ratio (in column 2 it writes the strength or the natural frequency, and the
natural-frequency recompute skips the damping for non-Position targets). -/
theorem propagate_to_velocity_damping (mode : JointSettingMode) (value : ℚ)
    (col : ℕ) (hcol : col = 2 ∨ col = 3) (it : UrdfJointItem)
    (hv : get_value_as_string it.combo = some "Velocity")
    (ht : it.joint.drive.target_type = 2) :
    (propagate_to mode value col it).joint.drive.damping
        = it.joint.drive.damping ∧
    (propagate_to mode value col it).joint.drive.damping_ratio
        = it.joint.drive.damping_ratio := by
  rcases hcol with hcol | hcol
  swap
  · subst hcol
    rw [propagate_to_velocity_col3 mode value it hv]
    exact ⟨rfl, rfl⟩
  subst hcol
  unfold propagate_to
  by_cases hp : get_value_as_string it.combo = some "Position" ∨
      get_value_as_string it.combo = some "Velocity"
  swap
  · rw [if_neg hp]; exact ⟨rfl, rfl⟩
  rw [if_pos hp, if_pos (by simp)]
  by_cases hne : get_item_value_num mode it 2 ≠ value
  swap
  · rw [if_neg hne]; exact ⟨rfl, rfl⟩
  rw [if_pos hne]
  cases mode with
  | stiffness => exact ⟨rfl, rfl⟩
  | naturalFrequency =>
      show (on_update_natural_frequency it.joint value).drive.damping = _ ∧
        (on_update_natural_frequency it.joint value).drive.damping_ratio = _
      unfold on_update_natural_frequency
      by_cases hch : it.joint.drive.natural_frequency ≠ value
      · rw [if_pos hch]
        have h := compute_drive_strength_spec
          { it.joint with drive :=
              { it.joint.drive with natural_frequency := value } }
        exact ⟨h.2.2.2.2.2.2.2.2.2.2
            (Or.inr (show it.joint.drive.target_type ≠ 1 from by
              rw [ht]; decide)),
          h.2.2.1⟩
      · rw [if_neg hch]; exact ⟨rfl, rfl⟩

/-- C5: bulk propagation of a numeric-column edit writes only to selected
rows other than the source whose displayed target type permits the edited
column: with an empty selection the collection is unchanged; unselected rows
and the source row are unchanged; rows displaying neither Position nor
Velocity are unchanged; a Velocity row is unchanged by a column-3
(damping / damping-ratio) propagation; and a Velocity row's damping and
damping ratio survive any propagation of the edited column. -/
theorem C5_propagation (mode : JointSettingMode) (items : List UrdfJointItem)
    (sel : List ℕ) (src col i : ℕ) (hcol : col = 2 ∨ col = 3) :
    (sel = [] → bulk_on_value_changed mode true items sel src col = items) ∧
    (¬(i ∈ sel ∧ i ≠ src) →
      (bulk_on_value_changed mode true items sel src col)[i]? = items[i]?) ∧
    (∀ it : UrdfJointItem, items[i]? = some it →
      (¬(get_value_as_string it.combo = some "Position" ∨
          get_value_as_string it.combo = some "Velocity") →
        (bulk_on_value_changed mode true items sel src col)[i]? = some it) ∧
      (get_value_as_string it.combo = some "Velocity" ∧ col = 3 →
        (bulk_on_value_changed mode true items sel src col)[i]? = some it) ∧
      (get_value_as_string it.combo = some "Velocity" ∧
          it.joint.drive.target_type = 2 →
        ∃ it2 : UrdfJointItem,
          (bulk_on_value_changed mode true items sel src col)[i]? = some it2 ∧
          it2.joint.drive.damping = it.joint.drive.damping ∧
          it2.joint.drive.damping_ratio = it.joint.drive.damping_ratio)) := by
  cases hsrc : items[src]? with
  | none =>
      have hbn : bulk_on_value_changed mode true items sel src col = items := by
        unfold bulk_on_value_changed
        rw [if_neg (by decide), hsrc]
      rw [hbn]
      refine ⟨fun _ => rfl, fun _ => rfl, fun it hit => ?_⟩
      exact ⟨fun _ => hit, fun _ => hit, fun _ => ⟨it, hit, rfl, rfl⟩⟩
  | some s =>
      have hbs : bulk_on_value_changed mode true items sel src col
          = items.mapIdx (fun n it =>
              if n ∈ sel ∧ n ≠ src then
                propagate_to mode (source_value mode s col) col it
              else it) := by
        unfold bulk_on_value_changed
        rw [if_neg (by decide), hsrc]
      rw [hbs]
      refine ⟨?_, ?_, fun it hit => ⟨?_, ?_, ?_⟩⟩
      · rintro rfl
        apply List.ext_get?
        intro n
        simp [List.get?_eq_getElem?, List.getElem?_mapIdx]
      · intro h
        rw [List.getElem?_mapIdx]
        cases hit : items[i]? with
        | none => rfl
        | some it => simp [if_neg h]
      · intro h
        rw [List.getElem?_mapIdx, hit]
        by_cases hc : i ∈ sel ∧ i ≠ src
        · have hpp := propagate_to_not_pv mode (source_value mode s col) col it h
          simp [if_pos hc, hpp]
        · simp [if_neg hc]
      · rintro ⟨hv, rfl⟩
        rw [List.getElem?_mapIdx, hit]
        by_cases hc : i ∈ sel ∧ i ≠ src
        · have hpp := propagate_to_velocity_col3 mode (source_value mode s 3) it hv
          simp [if_pos hc, hpp]
        · simp [if_neg hc]
      · rintro ⟨hv, ht⟩
        rw [List.getElem?_mapIdx, hit]
        by_cases hc : i ∈ sel ∧ i ≠ src
        · refine ⟨propagate_to mode (source_value mode s col) col it, ?_, ?_, ?_⟩
          · simp [if_pos hc]
          · exact (propagate_to_velocity_damping mode (source_value mode s col)
              col hcol it hv ht).1
          · exact (propagate_to_velocity_damping mode (source_value mode s col)
              col hcol it hv ht).2
        · exact ⟨it, by simp [if_neg hc], rfl, rfl⟩

/-- C5 witness: in the two-row collection `itemsC5` (Position row then
Velocity row), propagating a column-3 (damping) edit from row 0 to the
selection {0, 1} leaves the Velocity row untouched, and propagation with an
empty selection leaves the whole collection unchanged. -/
theorem C5_propagation_witness :
    ((3 : ℕ) = 2 ∨ (3 : ℕ) = 3) ∧
    itemsC5[1]? = some itVel ∧
    get_value_as_string itVel.combo = some "Velocity" ∧
    (bulk_on_value_changed JointSettingMode.stiffness true itemsC5 [0, 1] 0 3)[1]?
      = some itVel ∧
    bulk_on_value_changed JointSettingMode.stiffness true itemsC5 [] 0 3
      = itemsC5 := by
  have h := C5_propagation JointSettingMode.stiffness itemsC5 [0, 1] 0 3 1
    (Or.inr rfl)
  have h0 := C5_propagation JointSettingMode.stiffness itemsC5 [] 0 3 1
    (Or.inr rfl)
  refine ⟨Or.inr rfl, rfl, by decide, ?_, h0.1 rfl⟩
  exact (h.2.2 itVel rfl).2.1 ⟨by decide, rfl⟩

end Urdf
